import Mathlib

/-!
Shallow embedding of the Razorpay webhook-ingestion and billing-reconciliation
engine of the `dinematters` repository:

* `dinematters/dinematters/api/webhooks.py` — signature verification, the
  intake endpoint `razorpay_webhook`, and the four event handlers;
* `dinematters/dinematters/api/webhook_worker.py` — the background worker
  `process_webhook_log`;
* `dinematters/dinematters/doctype/monthly_billing_ledger/monthly_billing_ledger.py`
  — the `before_save` fee computation;
* `dinematters/dinematters/api/payments.py` — `charge_monthly_bill` and
  `process_retry_charges` (retry scheduler with exponential backoff);
* `dinematters/dinematters/tasks/monthly_reconciliation.py` —
  `get_razorpay_client` and `create_minimum_fee_payment_link`.

Modelling conventions:

* Frappe document stores become lists of records inside a `World` structure;
  `frappe.get_all(..., filters=...)` followed by taking the first row becomes
  `List.find?`, and `save` / `frappe.db.set_value` become an update of the
  first record with the given name.
* Python `None` becomes `Option.none`; Python string truthiness (empty string
  is falsy) is `strTruthy`.
* Python numbers are embedded as `ℤ` where the source only ever holds
  integers (paise amounts, counters) and as `ℚ` where the source holds
  floats (rupee amounts such as `Order.total`); `int(x)` on a float is
  truncation toward zero, embedded as `pyInt`; `math.floor` on an integer
  scaled by `0.01` is floor division `Int.fdiv · 100`.
* `datetime.now()` is an explicit parameter: `now : Nat` (minutes) for
  timestamps and `month : String` for `strftime("%Y-%m")`.
* The HMAC-SHA256 primitive from Python's `hashlib`/`hmac` (an external
  library, not code of this repository) is a parameter
  `hmacHex : String → String → String` (secret, raw body ↦ hex digest).
* The Razorpay gateway client is external: a charge attempt's outcome is the
  parameter `gw : Except String (Option String)` (error message, or the
  `payment.get("id")` of a created payment).
* `frappe.throw` raises; every raise that the source catches with a
  `try/except` returning an error dict is embedded as the corresponding
  error-result branch.
-/

/-- Python truthiness of an optional string: `None` and `""` are falsy. -/
def strTruthy : Option String → Bool
  | none => false
  | some s => !(s.isEmpty)

/-- Python `int(q)` on a number: truncation toward zero (`Rat.floor` is the
computable floor on `ℚ`, so for `q ≥ 0` this is `⌊q⌋` and for `q < 0` it is
`-⌊-q⌋`). -/
def pyInt (q : ℚ) : ℤ := if q < 0 then -((-q).floor) else q.floor

/-- Update the first element satisfying `p` (the record with a given primary
key, since names are unique in a Frappe table). -/
def updateFirst (p : α → Bool) (f : α → α) : List α → List α
  | [] => []
  | x :: xs => if p x then f x :: xs else x :: updateFirst p f xs

theorem updateFirst_length (p : α → Bool) (f : α → α) (xs : List α) :
    (updateFirst p f xs).length = xs.length := by
  induction xs with
  | nil => rfl
  | cons x xs ih =>
    simp only [updateFirst]
    by_cases h : p x <;> simp [h, ih]

/-! ## Data model -/

/-- `notes` object inside a Razorpay payment entity. -/
structure PaymentNotes where
  restaurant_id : Option String
  type : Option String
  attempt_id : Option String
  order_id : Option String
  deriving DecidableEq, Repr

/-- `card` object inside a Razorpay payment entity. -/
structure CardInfo where
  token : Option String
  token_id : Option String
  deriving DecidableEq, Repr

/-- `payload.payment.entity` of a Razorpay webhook. -/
structure PaymentEntity where
  id : Option String
  order_id : Option String
  amount : Option ℤ
  notes : Option PaymentNotes
  customer_id : Option String
  customer : Option String
  token : Option String
  card : Option CardInfo
  deriving DecidableEq, Repr

/-- `payload.refund.entity` of a Razorpay webhook. -/
structure RefundEntity where
  payment_id : Option String
  amount : Option ℤ
  deriving DecidableEq, Repr

/-- `payload.payment_link.entity` of a Razorpay webhook. -/
structure PaymentLinkEntity where
  id : Option String
  deriving DecidableEq, Repr

/-- A parsed Razorpay webhook JSON body (the fields the engine reads). -/
structure RzpPayload where
  event : Option String
  event_id : Option String
  account_id : Option String
  payment : Option PaymentEntity
  refund : Option RefundEntity
  payment_link : Option PaymentLinkEntity
  deriving DecidableEq, Repr

def emptyNotes : PaymentNotes := ⟨none, none, none, none⟩
def emptyPaymentEntity : PaymentEntity := ⟨none, none, none, none, none, none, none, none⟩
def emptyRefundEntity : RefundEntity := ⟨none, none⟩
def emptyPaymentLinkEntity : PaymentLinkEntity := ⟨none⟩
def emptyPayload : RzpPayload := ⟨none, none, none, none, none, none⟩

/-- One row of the `Razorpay Webhook Log` doctype (the WebhookEvent store).
`payload` is stored serialized in the source; here it is kept in parsed form,
with `none` standing for a body `json.loads` rejects. -/
structure WebhookLog where
  name : String
  event_id : Option String
  event_type : Option String
  payload : Option RzpPayload
  processed : Bool
  processing_result : Option String
  deriving DecidableEq, Repr

/-- The fields of the `Order` doctype this engine touches. -/
structure Order where
  name : String
  restaurant : String
  total : ℚ
  platform_fee_amount : ℚ
  razorpay_order_id : Option String
  razorpay_payment_id : Option String
  transaction_id : Option String
  payment_status : String
  status : String
  deriving DecidableEq, Repr

/-- One row of the `Monthly Billing Ledger` doctype. -/
structure MonthlyBillingLedger where
  name : String
  restaurant : String
  billing_month : String
  total_gmv : ℤ
  calculated_fee : ℤ
  final_amount : ℤ
  payment_status : String
  razorpay_payment_id : Option String
  retry_count : ℕ
  next_retry_at : Option ℕ
  payment_date : Option ℕ
  deriving DecidableEq, Repr

/-- One row of the `Monthly Revenue Ledger` doctype (named `MRL-<rest>-<month>`). -/
structure MonthlyRevenueLedger where
  name : String
  restaurant : String
  month : String
  total_gmv : ℤ
  total_platform_fee : ℚ
  minimum_due : ℚ
  status : String
  paid_date : Option ℕ
  payment_link_id : Option String
  payment_link_url : Option String
  deriving DecidableEq, Repr

/-- One row of the `Tokenization Attempt` doctype. -/
structure TokenizationAttempt where
  name : String
  amount : Option ℤ
  razorpay_order_id : Option String
  razorpay_payment_id : Option String
  customer_id : Option String
  token_id : Option String
  status : String
  processed : Bool
  deriving DecidableEq, Repr

/-- The merchant-configuration subset of the `Restaurant` doctype. -/
structure Restaurant where
  name : String
  razorpay_account_id : Option String
  razorpay_webhook_secret : Option String
  razorpay_customer_id : Option String
  razorpay_token_id : Option String
  mandate_status : Option String
  billing_status : Option String
  razorpay_merchant_key_id : Option String
  razorpay_merchant_key_secret : Option String
  monthly_minimum : Option ℚ
  deriving DecidableEq, Repr

/-- Site configuration (`frappe.conf` / `site_config.json`). -/
structure SiteConf where
  razorpay_webhook_secret : Option String
  razorpay_key_id : Option String
  razorpay_key_secret : Option String
  deriving DecidableEq, Repr

/-- The persistent state the engine reads and writes: one list per Frappe
table, plus the background-job queue (`frappe.enqueue`). -/
structure World where
  logs : List WebhookLog
  orders : List Order
  billingLedgers : List MonthlyBillingLedger
  revenueLedgers : List MonthlyRevenueLedger
  attempts : List TokenizationAttempt
  restaurants : List Restaurant
  queue : List String
  deriving DecidableEq, Repr

def World.findOrder (w : World) (p : Order → Bool) : Option Order :=
  w.orders.find? p

def World.findRestaurant (w : World) (n : String) : Option Restaurant :=
  w.restaurants.find? (·.name == n)

def World.findBillingLedger (w : World) (p : MonthlyBillingLedger → Bool) :
    Option MonthlyBillingLedger :=
  w.billingLedgers.find? p

def World.findRevenueLedger (w : World) (n : String) : Option MonthlyRevenueLedger :=
  w.revenueLedgers.find? (·.name == n)

def World.findLog (w : World) (n : String) : Option WebhookLog :=
  w.logs.find? (·.name == n)

def World.updateOrder (w : World) (n : String) (f : Order → Order) : World :=
  { w with orders := updateFirst (·.name == n) f w.orders }

def World.updateRestaurant (w : World) (n : String) (f : Restaurant → Restaurant) : World :=
  { w with restaurants := updateFirst (·.name == n) f w.restaurants }

def World.updateBillingLedger (w : World) (n : String)
    (f : MonthlyBillingLedger → MonthlyBillingLedger) : World :=
  { w with billingLedgers := updateFirst (·.name == n) f w.billingLedgers }

def World.updateRevenueLedger (w : World) (n : String)
    (f : MonthlyRevenueLedger → MonthlyRevenueLedger) : World :=
  { w with revenueLedgers := updateFirst (·.name == n) f w.revenueLedgers }

def World.updateAttempt (w : World) (n : String)
    (f : TokenizationAttempt → TokenizationAttempt) : World :=
  { w with attempts := updateFirst (·.name == n) f w.attempts }

def World.updateLog (w : World) (n : String) (f : WebhookLog → WebhookLog) : World :=
  { w with logs := updateFirst (·.name == n) f w.logs }

/-! ## `MonthlyBillingLedger.before_save`
(`doctype/monthly_billing_ledger/monthly_billing_ledger.py`) -/

/-- `monthly_billing_ledger.py`, `before_save`: the first
`calculated_fee` assignment is immediately overwritten by
`int(math.floor(total_gmv * 0.01))`, i.e. floor division of the paise GMV
by 100; `final_amount = max(999*100, min(calculated_fee, 3999*100))`. -/
def MonthlyBillingLedger.before_save (l : MonthlyBillingLedger) : MonthlyBillingLedger :=
  let total_gmv := l.total_gmv
  let calculated_fee := Int.fdiv total_gmv 100
  let min_amt : ℤ := 999 * 100
  let max_amt : ℤ := 3999 * 100
  let final_amount := max min_amt (min calculated_fee max_amt)
  { l with calculated_fee := calculated_fee, final_amount := final_amount }

/-! ## `tasks/monthly_reconciliation.py` : client construction and
payment-link creation for monthly minimums -/

/-- `monthly_reconciliation.py`, `get_razorpay_client`: reads the site keys
and throws `"Razorpay API keys not configured"` when
`not key_id or key_secret` — note the missing `not` in front of
`key_secret`, copied verbatim from the source. -/
def reconciliation_get_razorpay_client (conf : SiteConf) :
    Except String (String × Option String) :=
  let key_id := conf.razorpay_key_id
  let key_secret := conf.razorpay_key_secret
  if !(strTruthy key_id) || strTruthy key_secret then
    .error "Razorpay API keys not configured"
  else
    .ok (key_id.getD "", key_secret)

/-- `monthly_reconciliation.py`, `create_minimum_fee_payment_link`: builds a
payment link for the shortfall through the client obtained from
`get_razorpay_client`; the gateway call itself is the external parameter
`gw`. The `except` clause re-raises, so a client-construction failure
propagates. -/
def create_minimum_fee_payment_link
    (gw : String × Option String → String → ℤ → Except String String)
    (conf : SiteConf) (restaurant : String) (amount_paise : ℤ) :
    Except String String := do
  let client ← reconciliation_get_razorpay_client conf
  gw client restaurant amount_paise

/-! ## `api/webhooks.py` : signature verification and intake endpoint -/

/-- Result dict returned by an event handler: `{"success": True, ...}` or
`{"error": ...}`, summarized by a detail string. -/
inductive HandlerResult where
  | success (detail : String)
  | error (detail : String)
  deriving DecidableEq, Repr

/-- HTTP-level response of the intake endpoint. -/
structure WebhookResponse where
  success : Bool
  message : Option String
  error : Option String
  deriving DecidableEq, Repr

/-- `webhooks.py`, `verify_razorpay_signature`: throws when the secret is
missing, otherwise compares the HMAC-SHA256 hex digest of the body with the
header value (`hmac.compare_digest` is string equality with constant-time
execution, which a functional model need not distinguish). -/
def verify_razorpay_signature (hmacHex : String → String → String)
    (body : String) (signature : String) (webhook_secret : Option String) :
    Except String Bool :=
  if !(strTruthy webhook_secret) then
    .error "Razorpay webhook secret not configured"
  else
    .ok (hmacHex (webhook_secret.getD "") body == signature)

/-- Secret-resolution prefix of `razorpay_webhook`: merchant secret via the
top-level `account_id`, then via `payload.payment.entity.notes.restaurant_id`,
finally the site-level `razorpay_webhook_secret`. `get_password(...) or None`
maps empty secrets to `none`; a failed `get_doc` is caught and leaves the
merchant secret unset. -/
def resolve_webhook_secret (conf : SiteConf) (w : World) (preview : RzpPayload) :
    Option String :=
  let account_id := preview.account_id
  let fromAccount : Option String :=
    if strTruthy account_id then
      match w.restaurants.find? (·.razorpay_account_id == account_id) with
      | some r => if strTruthy r.razorpay_webhook_secret then r.razorpay_webhook_secret else none
      | none => none
    else none
  let merchant_secret : Option String :=
    if strTruthy fromAccount then fromAccount
    else
      match (preview.payment.bind (·.notes)).bind (·.restaurant_id) with
      | some rnote =>
        match w.findRestaurant rnote with
        | some r2 =>
          if strTruthy r2.razorpay_webhook_secret then r2.razorpay_webhook_secret
          else fromAccount
        | none => fromAccount
      | none => fromAccount
  if strTruthy merchant_secret then merchant_secret else conf.razorpay_webhook_secret

/-- An inbound HTTP request as the endpoint sees it: the raw body bytes (for
HMAC), the `X-Razorpay-Signature` header, and the result of `json.loads`
(`none` when the body is not valid JSON). -/
structure WebhookRequest where
  rawBody : String
  signature : String
  parsed : Option RzpPayload
  deriving DecidableEq, Repr

/-- `webhooks.py`, `razorpay_webhook`: resolve the secret, verify the
signature (a `frappe.throw` lands in the outer `except`, producing a
`success=False` response with no state change), parse the payload, suppress
duplicates by `event_id`, insert a `Razorpay Webhook Log` row and enqueue
`process_webhook_log` for it. The fresh document name is generated from the
table size. -/
def razorpay_webhook (hmacHex : String → String → String) (conf : SiteConf)
    (w : World) (req : WebhookRequest) : World × WebhookResponse :=
  let payload_preview := req.parsed.getD emptyPayload
  let webhook_secret := resolve_webhook_secret conf w payload_preview
  match verify_razorpay_signature hmacHex req.rawBody req.signature webhook_secret with
  | .error e => (w, ⟨false, none, some e⟩)
  | .ok false => (w, ⟨false, none, some "Invalid signature"⟩)
  | .ok true =>
    match req.parsed with
    | none => (w, ⟨false, none, some "Expecting value: invalid JSON"⟩)
    | some payload =>
      let event_type := payload.event
      let event_id := payload.event_id
      if strTruthy event_id && w.logs.any (·.event_id == event_id) then
        (w, ⟨true, some "Duplicate event ignored", none⟩)
      else
        let newName := "RZP-WH-" ++ toString w.logs.length
        let log : WebhookLog :=
          ⟨newName, event_id, event_type, some payload, false, none⟩
        let w1 := { w with logs := w.logs ++ [log] }
        let w2 := { w1 with queue := w1.queue ++ [newName] }
        (w2, ⟨true, some "Webhook received", none⟩)

/-! ## `api/webhooks.py` : event handlers -/

/-- `MonthlyRevenueLedger.before_save`
(`doctype/monthly_revenue_ledger/monthly_revenue_ledger.py`): when the stored
platform fee is truthy, recompute `minimum_due` against the owning
restaurant's `monthly_minimum` (marking the row `paid` when no minimum is
due). `none` models the save aborting because `frappe.get_doc` raised or
`monthly_minimum` is `None`. -/
def MonthlyRevenueLedger.before_save_hook (w : World) (l : MonthlyRevenueLedger) :
    Option MonthlyRevenueLedger :=
  if l.total_platform_fee ≠ 0 && strTruthy (some l.restaurant) then
    match w.findRestaurant l.restaurant with
    | none => none
    | some r =>
      match r.monthly_minimum with
      | none => none
      | some mm =>
        let monthly_minimum_paise := pyInt (mm * 100)
        if l.total_platform_fee < (monthly_minimum_paise : ℚ) then
          some { l with minimum_due := (monthly_minimum_paise : ℚ) - l.total_platform_fee }
        else
          some { l with minimum_due := 0, status := "paid" }
  else some l

/-- `webhooks.py`, `reverse_monthly_ledger`: subtract the refund and the
proportional fee from the current-month `Monthly Revenue Ledger`, flooring
both at zero; absent ledger or a failing save leaves the world unchanged
(the surrounding `try/except` only logs). -/
def reverse_monthly_ledger (month : String) (w : World) (restaurant_id : String)
    (refund_amount : ℤ) (platform_fee_refund : ℤ) : World :=
  let ledger_name := "MRL-" ++ restaurant_id ++ "-" ++ month
  match w.findRevenueLedger ledger_name with
  | none => w
  | some l =>
    let l1 := { l with
      total_gmv := max 0 (l.total_gmv - refund_amount),
      total_platform_fee := max 0 (l.total_platform_fee - (platform_fee_refund : ℚ)) }
    match MonthlyRevenueLedger.before_save_hook w l1 with
    | none => w
    | some l2 => w.updateRevenueLedger ledger_name (fun _ => l2)

/-- `TokenizationAttempt.validate`
(`doctype/tokenization_attempt/tokenization_attempt.py`): coerce `amount`
to an integer, defaulting a falsy amount to 100. -/
def taValidate (t : TokenizationAttempt) : TokenizationAttempt :=
  { t with amount := some (match t.amount with
      | some a => if a = 0 then 100 else a
      | none => 100) }

/-- `webhooks.py`, `handle_payment_captured`. Three branches, exactly as in
the source: (1) tokenization intent from the notes; (2) a `Monthly Billing
Ledger` carrying this `razorpay_payment_id` is marked paid (its `save` runs
`MonthlyBillingLedger.before_save`); (3) otherwise `{"error": "No order_id
in payment data"}`. Both arms of the source's `if ledgers:` statement
`return`, so the order-lookup code that follows it (updating the Order and
folding totals into the revenue ledger) is unreachable and has no image in
this embedding. `frappe.db.set_value` on an absent row is embedded as a
no-op (the raise is swallowed by the surrounding `except`). -/
def handle_payment_captured (now : ℕ) (w : World) (payload : RzpPayload) :
    World × HandlerResult :=
  let payment_data := payload.payment.getD emptyPaymentEntity
  let order_id := payment_data.order_id
  let payment_id := payment_data.id
  let notes := payment_data.notes.getD emptyNotes
  let restaurant_from_notes := notes.restaurant_id
  let request_type := notes.type
  if (request_type == some "tokenization") ||
      (strTruthy order_id && strTruthy notes.attempt_id) then
    let attempt_id := if strTruthy notes.attempt_id then notes.attempt_id else notes.order_id
    let attempt_doc : Option TokenizationAttempt :=
      if strTruthy attempt_id && w.attempts.any (fun t => some t.name == attempt_id) then
        w.attempts.find? (fun t => some t.name == attempt_id)
      else
        w.attempts.find? (·.razorpay_order_id == payment_data.order_id)
    let customer_id :=
      if strTruthy payment_data.customer_id then payment_data.customer_id
      else payment_data.customer
    let token_id :=
      if strTruthy payment_data.token then payment_data.token
      else if strTruthy (payment_data.card.bind (·.token)) then payment_data.card.bind (·.token)
      else payment_data.card.bind (·.token_id)
    let w1 :=
      match restaurant_from_notes with
      | some rname =>
        if strTruthy restaurant_from_notes then
          let wA := if strTruthy customer_id then
              w.updateRestaurant rname (fun r => { r with razorpay_customer_id := customer_id })
            else w
          if strTruthy token_id then
            wA.updateRestaurant rname (fun r =>
              { r with razorpay_token_id := token_id, mandate_status := some "active" })
          else wA
        else w
      | none => w
    let w2 :=
      match attempt_doc with
      | some a =>
        w1.updateAttempt a.name (fun t =>
          let t1 := { t with razorpay_payment_id := payment_id }
          let t2 := if strTruthy customer_id then { t1 with customer_id := customer_id } else t1
          let t3 := if strTruthy token_id then { t2 with token_id := token_id } else t2
          taValidate { t3 with status := "captured", processed := true })
      | none => w1
    (w2, .success "Tokenization recorded")
  else
    match w.billingLedgers.find? (·.razorpay_payment_id == payment_id) with
    | some mb =>
      (w.updateBillingLedger mb.name (fun l =>
        ({ l with payment_status := "paid", payment_date := some now }).before_save),
       .success ("ledger_paid:" ++ mb.name))
    | none => (w, .error "No order_id in payment data")

/-- `webhooks.py`, `handle_refund_processed`: find the Order by
`razorpay_payment_id`; full refund (`refund_amount == int(total*100)`) sets
`refunded`/`cancelled`, anything else `partially_refunded`; then reverse the
refund and the truncated proportional fee out of the current-month revenue
ledger. A `None` refund amount or a zero order total raises inside the
handler's `try` and yields an error result with no mutation. -/
def handle_refund_processed (month : String) (w : World) (payload : RzpPayload) :
    World × HandlerResult :=
  let refund_data := payload.refund.getD emptyRefundEntity
  let payment_id := refund_data.payment_id
  let refund_amount := refund_data.amount
  match w.orders.find? (·.razorpay_payment_id == payment_id) with
  | some o =>
    let total_amount_paise := pyInt (o.total * 100)
    match refund_amount with
    | none => (w, .error "unsupported operand type")
    | some ra =>
      if total_amount_paise = 0 then (w, .error "division by zero")
      else
        let refund_ratio : ℚ := (ra : ℚ) / (total_amount_paise : ℚ)
        let platform_fee_refund := pyInt (o.platform_fee_amount * refund_ratio)
        let o' :=
          if ra = total_amount_paise then
            { o with payment_status := "refunded", status := "cancelled" }
          else
            { o with payment_status := "partially_refunded" }
        let w1 := w.updateOrder o.name (fun _ => o')
        let w2 := reverse_monthly_ledger month w1 o.restaurant ra platform_fee_refund
        (w2, .success ("refund:" ++ payment_id.getD ""))
  | none => (w, .success ("refund:" ++ payment_id.getD ""))

/-- `webhooks.py`, `handle_payment_link_paid`: find the `Monthly Revenue
Ledger` carrying this `payment_link_id` and mark it paid; if the save (with
its `before_save` hook) fails, fall back to direct `db.set_value` of the two
fields. -/
def handle_payment_link_paid (now : ℕ) (w : World) (payload : RzpPayload) :
    World × HandlerResult :=
  let payment_link_data := payload.payment_link.getD emptyPaymentLinkEntity
  let payment_link_id := payment_link_data.id
  match w.revenueLedgers.find? (·.payment_link_id == payment_link_id) with
  | some l =>
    let l1 := { l with status := "paid", paid_date := some now }
    match MonthlyRevenueLedger.before_save_hook w l1 with
    | some l2 =>
      (w.updateRevenueLedger l.name (fun _ => l2),
       .success ("payment_link_paid:" ++ payment_link_id.getD ""))
    | none =>
      (w.updateRevenueLedger l.name (fun x =>
        { x with status := "paid", paid_date := some now }),
       .success ("payment_link_paid:" ++ payment_link_id.getD ""))
  | none => (w, .success ("payment_link_paid:" ++ payment_link_id.getD ""))

/-- `webhooks.py`, `handle_payment_failed`: find the `Monthly Billing
Ledger` by `razorpay_payment_id`, mark it `failed` (the save reruns
`before_save`), and flip the owning Restaurant's `billing_status` to
`overdue`. -/
def handle_payment_failed (w : World) (payload : RzpPayload) : World × HandlerResult :=
  let payment_data := payload.payment.getD emptyPaymentEntity
  let payment_id := payment_data.id
  match w.billingLedgers.find? (·.razorpay_payment_id == payment_id) with
  | some l =>
    let w1 := w.updateBillingLedger l.name (fun x =>
      ({ x with payment_status := "failed" }).before_save)
    let w2 := w1.updateRestaurant l.restaurant (fun r =>
      { r with billing_status := some "overdue" })
    (w2, .success ("payment_failed:" ++ payment_id.getD ""))
  | none => (w, .success ("payment_failed:" ++ payment_id.getD ""))

/-! ## `api/webhook_worker.py` : the dispatcher -/

/-- Serialization of a handler result into `processing_result`
(`json.dumps(result) if result else None`). -/
def encodeResult : HandlerResult → String
  | .success d => "success:" ++ d
  | .error d => "error:" ++ d

/-- `webhook_worker.py`, `process_webhook_log`: load the log row (a missing
row raises out of the worker, leaving the world unchanged), skip if already
processed, mark an unparseable payload processed, otherwise dispatch on the
event type — unknown types produce a `None` result — and as the final step
set `processed=True` and store the serialized result. -/
def process_webhook_log (now : ℕ) (month : String) (w : World) (logName : String) :
    World × Option HandlerResult :=
  match w.findLog logName with
  | none => (w, none)
  | some log =>
    if log.processed then (w, none)
    else
      match log.payload with
      | none =>
        (w.updateLog logName (fun l => { l with processed := true }), none)
      | some payload =>
        let event_type := payload.event
        let step : World × Option HandlerResult :=
          if event_type == some "payment.captured" then
            let p := handle_payment_captured now w payload
            (p.1, some p.2)
          else if event_type == some "refund.processed" then
            let p := handle_refund_processed month w payload
            (p.1, some p.2)
          else if event_type == some "payment_link.paid" then
            let p := handle_payment_link_paid now w payload
            (p.1, some p.2)
          else if event_type == some "payment.failed" then
            let p := handle_payment_failed w payload
            (p.1, some p.2)
          else (w, none)
        (step.1.updateLog logName (fun l =>
          { l with processed := true, processing_result := step.2.map encodeResult }),
         step.2)

/-! ## `api/payments.py` : charge routine and retry scheduler -/

/-- `payments.py`, `get_razorpay_client(restaurant_id)`: merchant keys from
the Restaurant when both are set, else the site keys; throws when neither
pair is complete. -/
def payments_get_razorpay_client (conf : SiteConf) (w : World)
    (restaurant_id : Option String) : Except String (String × String) :=
  let merchant : Option String × Option String :=
    match restaurant_id with
    | some rid =>
      match w.findRestaurant rid with
      | some r => (r.razorpay_merchant_key_id, r.razorpay_merchant_key_secret)
      | none => (none, none)
    | none => (none, none)
  let keys :=
    if !(strTruthy merchant.1) || !(strTruthy merchant.2) then
      (conf.razorpay_key_id, conf.razorpay_key_secret)
    else merchant
  if !(strTruthy keys.1) || !(strTruthy keys.2) then
    .error "Razorpay API keys not configured"
  else
    .ok (keys.1.getD "", keys.2.getD "")

/-- Exponential backoff applied by `charge_monthly_bill` on a failed charge:
`min(2 ** retry, 1440)` minutes. -/
def backoffDelay (retry : ℕ) : ℕ := min (2 ^ retry) 1440

/-- `payments.py`, `charge_monthly_bill`. `gw` is the outcome of the external
gateway call (`client.payments.create`): an error message, or the created
payment's optional id. Paths, as in the source: missing ledger → the outer
`except` fires but `db.set_value` on the absent row mutates nothing; already
`paid` → no-op; missing Restaurant or a throwing `get_razorpay_client` →
the outer `except` marks the ledger `failed`; missing customer/token →
structured error, no mutation; gateway failure → increment `retry_count`,
set `next_retry_at = now + backoffDelay` and `payment_status="retry"`;
gateway success → record the payment id, `payment_status="pending"`. All
mutations here are `frappe.db.set_value`, which bypasses document hooks. -/
def charge_monthly_bill (gw : Except String (Option String)) (now : ℕ)
    (conf : SiteConf) (w : World) (ledger_name : String) : World × HandlerResult :=
  match w.billingLedgers.find? (·.name == ledger_name) with
  | none => (w, .error "Monthly Billing Ledger not found")
  | some ledger =>
    if ledger.payment_status == "paid" then (w, .error "Already paid")
    else
      match w.findRestaurant ledger.restaurant with
      | none =>
        (w.updateBillingLedger ledger_name (fun l => { l with payment_status := "failed" }),
         .error "Restaurant not found")
      | some restaurant =>
        if !(strTruthy restaurant.razorpay_customer_id) ||
            !(strTruthy restaurant.razorpay_token_id) then
          (w, .error "Restaurant missing customer/token")
        else
          match payments_get_razorpay_client conf w (some restaurant.name) with
          | .error e =>
            (w.updateBillingLedger ledger_name (fun l => { l with payment_status := "failed" }),
             .error e)
          | .ok _ =>
            match gw with
            | .error e =>
              let retry := ledger.retry_count + 1
              let delay_minutes := backoffDelay retry
              (w.updateBillingLedger ledger_name (fun l =>
                { l with retry_count := retry,
                         next_retry_at := some (now + delay_minutes),
                         payment_status := "retry" }),
               .error e)
            | .ok payment_id =>
              (w.updateBillingLedger ledger_name (fun l =>
                { l with razorpay_payment_id := payment_id, payment_status := "pending" }),
               .success ("charged:" ++ payment_id.getD ""))

/-- `payments.py`, `process_retry_charges`: charge every ledger whose
`payment_status` is `retry` and whose `next_retry_at` is due (a `NULL`
`next_retry_at` never satisfies the SQL `<=` filter); per-ledger exceptions
are caught and logged. Returns the number of due ledgers. -/
def process_retry_charges (gw : Except String (Option String)) (now : ℕ)
    (conf : SiteConf) (w : World) : World × ℕ :=
  let due := w.billingLedgers.filter (fun l =>
    l.payment_status == "retry" &&
      (match l.next_retry_at with
       | some t => decide (t ≤ now)
       | none => false))
  (due.foldl (fun acc l => (charge_monthly_bill gw now conf acc l.name).1) w, due.length)

/-! ## Helper lemmas about the store operations -/

theorem find?_updateFirst (p : α → Bool) (f : α → α) (xs : List α)
    (hpf : ∀ a, p a = true → p (f a) = true) :
    (updateFirst p f xs).find? p = (xs.find? p).map f := by
  induction xs with
  | nil => rfl
  | cons x xs ih =>
    by_cases h : p x
    · simp only [updateFirst, h, if_pos]
      rw [List.find?_cons_of_pos _ (hpf x h), List.find?_cons_of_pos _ h]
      rfl
    · simp only [updateFirst, h, if_neg, Bool.false_eq_true, not_false_iff]
      rw [List.find?_cons_of_neg _ (by simp [h]), List.find?_cons_of_neg _ (by simp [h])]
      exact ih

theorem mem_updateFirst {p : α → Bool} {f : α → α} {xs : List α} {y : α}
    (hy : y ∈ updateFirst p f xs) :
    y ∈ xs ∨ ∃ x, x ∈ xs ∧ p x = true ∧ y = f x := by
  induction xs with
  | nil => cases hy
  | cons x xs ih =>
    by_cases h : p x
    · rw [show updateFirst p f (x :: xs) = f x :: xs by simp [updateFirst, h],
        List.mem_cons] at hy
      rcases hy with hy | hy
      · exact Or.inr ⟨x, List.mem_cons_self x xs, h, hy⟩
      · exact Or.inl (List.mem_cons_of_mem x hy)
    · rw [show updateFirst p f (x :: xs) = x :: updateFirst p f xs by simp [updateFirst, h],
        List.mem_cons] at hy
      rcases hy with hy | hy
      · exact Or.inl (hy ▸ List.mem_cons_self x xs)
      · rcases ih hy with h1 | ⟨x', hx', hpx', hyx'⟩
        · exact Or.inl (List.mem_cons_of_mem x h1)
        · exact Or.inr ⟨x', List.mem_cons_of_mem x hx', hpx', hyx'⟩

/-! ## C4 : Monthly Billing Ledger fee clamp -/

/-- C4: for every `Monthly Billing Ledger` save with `totalGMV ≥ 0`,
`before_save` stores `calculated_fee = ⌊totalGMV * 1%⌋` and
`final_amount = max(999*100, min(calculated_fee, 3999*100))`; hence
`final_amount` lies in `[999*100, 3999*100]`. Both fields are functions of
the current `total_gmv` alone, so they are recomputed on every save. -/
theorem C4_billing_fee_clamp (l : MonthlyBillingLedger) (_h : 0 ≤ l.total_gmv) :
    (l.before_save).calculated_fee = ⌊(l.total_gmv : ℚ) * (1 / 100)⌋ ∧
    (l.before_save).final_amount =
      max (999 * 100) (min (l.before_save).calculated_fee (3999 * 100)) ∧
    999 * 100 ≤ (l.before_save).final_amount ∧
    (l.before_save).final_amount ≤ 3999 * 100 ∧
    (l.before_save).total_gmv = l.total_gmv := by
  have hfloor : ⌊(l.total_gmv : ℚ) * (1 / 100)⌋ = Int.fdiv l.total_gmv 100 := by
    rw [mul_one_div]
    rw [show ((100 : ℚ)) = ((100 : ℕ) : ℚ) by norm_num]
    rw [Rat.floor_intCast_div_natCast]
    rw [Int.fdiv_eq_ediv _ (by norm_num)]
    norm_num
  unfold MonthlyBillingLedger.before_save
  refine ⟨hfloor.symm, rfl, ?_, ?_, rfl⟩
  · exact le_max_left _ _
  · exact max_le (by norm_num) (min_le_right _ _)

def c4Ledger : MonthlyBillingLedger :=
  ⟨"MBL-R1-2025-09", "R1", "2025-09", 500000, 0, 0, "pending", none, 0, none, none⟩

theorem C4_billing_fee_clamp_witness :
    (0 : ℤ) ≤ c4Ledger.total_gmv ∧
    ((c4Ledger.before_save).calculated_fee = ⌊(c4Ledger.total_gmv : ℚ) * (1 / 100)⌋ ∧
     (c4Ledger.before_save).final_amount =
       max (999 * 100) (min (c4Ledger.before_save).calculated_fee (3999 * 100)) ∧
     999 * 100 ≤ (c4Ledger.before_save).final_amount ∧
     (c4Ledger.before_save).final_amount ≤ 3999 * 100 ∧
     (c4Ledger.before_save).total_gmv = c4Ledger.total_gmv) :=
  ⟨by decide, C4_billing_fee_clamp c4Ledger (by decide)⟩

/-! ## C10 : inverted key check in the reconciliation client -/

/-- C10: the reconciliation task's `get_razorpay_client` errors with
`"Razorpay API keys not configured"` exactly when `razorpay_key_id` is
missing **or `razorpay_key_secret` is present** (the source tests
`not key_id or key_secret`), returns a client exactly when the key id is
configured and the secret is absent, and consequently payment-link creation
for monthly minimums always fails when both keys are configured. -/
theorem C10_reconciliation_client_key_check :
    (∀ conf : SiteConf,
        reconciliation_get_razorpay_client conf
            = .error "Razorpay API keys not configured"
          ↔ (strTruthy conf.razorpay_key_id = false ∨
             strTruthy conf.razorpay_key_secret = true)) ∧
    (∀ conf : SiteConf,
        (∃ c, reconciliation_get_razorpay_client conf = .ok c)
          ↔ (strTruthy conf.razorpay_key_id = true ∧
             strTruthy conf.razorpay_key_secret = false)) ∧
    (∀ (gw : String × Option String → String → ℤ → Except String String)
        (conf : SiteConf) (r : String) (amt : ℤ),
        strTruthy conf.razorpay_key_id = true →
        strTruthy conf.razorpay_key_secret = true →
        create_minimum_fee_payment_link gw conf r amt
          = .error "Razorpay API keys not configured") := by
  refine ⟨fun conf => ?_, fun conf => ?_, fun gw conf r amt h1 h2 => ?_⟩
  · unfold reconciliation_get_razorpay_client
    cases h1 : strTruthy conf.razorpay_key_id <;>
      cases h2 : strTruthy conf.razorpay_key_secret <;> simp [h1, h2]
  · unfold reconciliation_get_razorpay_client
    cases h1 : strTruthy conf.razorpay_key_id <;>
      cases h2 : strTruthy conf.razorpay_key_secret <;> simp [h1, h2]
  · unfold create_minimum_fee_payment_link reconciliation_get_razorpay_client
    simp only [h1, h2, Bool.not_true, Bool.false_or, if_pos]
    rfl

def c10Conf : SiteConf := ⟨none, some "rzp_live_key", some "rzp_live_secret"⟩

def c10Gateway : String × Option String → String → ℤ → Except String String :=
  fun _ _ _ => .ok "plink_0001"

theorem C10_reconciliation_client_key_check_witness :
    strTruthy c10Conf.razorpay_key_id = true ∧
    strTruthy c10Conf.razorpay_key_secret = true ∧
    create_minimum_fee_payment_link c10Gateway c10Conf "R1" 5000
      = .error "Razorpay API keys not configured" :=
  ⟨by decide, by decide,
    C10_reconciliation_client_key_check.2.2 c10Gateway c10Conf "R1" 5000
      (by decide) (by decide)⟩

/-! ## C1 : the order-intent fallback of `handle_payment_captured` is dead code -/

def c1Restaurant : Restaurant :=
  ⟨"R1", none, none, none, none, none, none, none, none, some 999⟩

def c1Order : Order :=
  ⟨"ORD-0001", "R1", 500, 10, some "order_X1", none, none, "pending", "pending"⟩

def c1Payment : PaymentEntity :=
  ⟨some "pay_Y1", some "order_X1", some 50000, some emptyNotes, none, none, none, none⟩

def c1Payload : RzpPayload :=
  ⟨some "payment.captured", some "evt_1", none, some c1Payment, none, none⟩

def c1World : World := ⟨[], [c1Order], [], [], [], [c1Restaurant], []⟩

/-- C1: a `payment.captured` event with no tokenization intent in its notes
and no `Monthly Billing Ledger` matching its payment id returns
`{"error": "No order_id in payment data"}` and mutates nothing — even though
an Order with the event's `razorpay_order_id` exists. Both arms of the
source's `if ledgers:` statement return, so the order-lookup fallback the
spec describes is unreachable. -/
theorem C1_order_fallback_unreachable :
    handle_payment_captured 0 c1World c1Payload
      = (c1World, HandlerResult.error "No order_id in payment data") ∧
    c1World.orders.find? (·.razorpay_order_id == some "order_X1") = some c1Order := by
  constructor <;> rfl

/-! ## C5 : retry backoff -/

def c5Restaurant : Restaurant :=
  ⟨"R1", none, none, some "cust_1", some "tok_1", some "active", none, none, none, some 999⟩

def c5Ledger : MonthlyBillingLedger :=
  ⟨"MBL-R1-2025-08", "R1", "2025-08", 500000, 5000, 99900, "retry", none, 10, some 0, none⟩

def c5Conf : SiteConf := ⟨some "whsec", some "rzp_key", some "rzp_secret"⟩

def c5World : World := ⟨[], [], [c5Ledger], [], [], [c5Restaurant], []⟩

/-- C5 counterexample: from `retry_count = 10`, two successive failed charge
attempts (both at `now = 0`) produce `retry_count` 11 and then 12, but the
applied delay is 1440 minutes both times (`min(2^11,1440) = min(2^12,1440)`),
so successive failures do **not** produce strictly increasing delays once the
cap is reached. -/
theorem C5_backoff_counterexample :
    ((charge_monthly_bill (.error "gateway unreachable") 0 c5Conf c5World
        "MBL-R1-2025-08").1.billingLedgers.map
        (fun l => (l.retry_count, l.next_retry_at))) = [(11, some 1440)] ∧
    ((charge_monthly_bill (.error "gateway unreachable") 0 c5Conf
        (charge_monthly_bill (.error "gateway unreachable") 0 c5Conf c5World
          "MBL-R1-2025-08").1 "MBL-R1-2025-08").1.billingLedgers.map
        (fun l => (l.retry_count, l.next_retry_at))) = [(12, some 1440)] := by
  constructor <;> rfl

/-- C5 (amended): a failed charge attempt increments `retry_count` by exactly
one and sets `next_retry_at = now + min(2^retry_count, 1440)` minutes and
`payment_status = "retry"`; the delays are bounded by 1440 minutes and
non-decreasing, and strictly increasing while the doubled delay is still
below the cap. -/
theorem C5_backoff_amended
    (gwErr : String) (now : ℕ) (conf : SiteConf) (w : World) (nm : String)
    (l : MonthlyBillingLedger) (r : Restaurant)
    (hl : w.billingLedgers.find? (·.name == nm) = some l)
    (hnp : (l.payment_status == "paid") = false)
    (hr : w.findRestaurant l.restaurant = some r)
    (hcred : (strTruthy r.razorpay_customer_id && strTruthy r.razorpay_token_id) = true)
    (hclient : ∃ ks, payments_get_razorpay_client conf w (some r.name) = .ok ks) :
    (charge_monthly_bill (.error gwErr) now conf w nm).1.billingLedgers.find?
        (·.name == nm)
      = some { l with retry_count := l.retry_count + 1,
                      next_retry_at := some (now + backoffDelay (l.retry_count + 1)),
                      payment_status := "retry" } ∧
    (∀ k, backoffDelay k ≤ 1440) ∧
    (∀ k, backoffDelay k ≤ backoffDelay (k + 1)) ∧
    (∀ k, 2 ^ (k + 1) ≤ 1440 → backoffDelay k < backoffDelay (k + 1)) := by
  obtain ⟨ks, hks⟩ := hclient
  obtain ⟨h1, h2⟩ := Bool.and_eq_true_iff.mp hcred
  refine ⟨?_, ?_, ?_, ?_⟩
  · simp only [charge_monthly_bill, hl, hnp, hr, hks, h1, h2, World.updateBillingLedger,
      Bool.not_true, Bool.or_self, Bool.false_eq_true, if_false]
    rw [find?_updateFirst]
    · rw [hl]; rfl
    · intro a ha; exact ha
  · intro k; exact min_le_right _ _
  · intro k
    exact min_le_min (Nat.pow_le_pow_right (by norm_num) (Nat.le_succ k)) le_rfl
  · intro k hk
    have h2 : (2 : ℕ) ^ k < 2 ^ (k + 1) := Nat.pow_lt_pow_succ (by norm_num)
    unfold backoffDelay
    rw [min_eq_left (le_of_lt (lt_of_lt_of_le h2 hk)), min_eq_left hk]
    exact h2

theorem C5_backoff_amended_witness :
    (c5World.billingLedgers.find? (·.name == "MBL-R1-2025-08") = some c5Ledger) ∧
    ((c5Ledger.payment_status == "paid") = false) ∧
    ((charge_monthly_bill (.error "gateway unreachable") 0 c5Conf c5World
        "MBL-R1-2025-08").1.billingLedgers.find? (·.name == "MBL-R1-2025-08")
      = some { c5Ledger with
               retry_count := c5Ledger.retry_count + 1,
               next_retry_at := some (0 + backoffDelay (c5Ledger.retry_count + 1)),
               payment_status := "retry" }) :=
  ⟨by decide, by decide,
   (C5_backoff_amended "gateway unreachable" 0 c5Conf c5World "MBL-R1-2025-08" c5Ledger
      c5Restaurant (by decide) (by decide) (by decide) (by decide)
      ⟨("rzp_key", "rzp_secret"), by rfl⟩).1⟩

/-! ## C2 : duplicate suppression at intake -/

/-- C2: a verified webhook whose payload carries an `event_id` for which a
`Razorpay Webhook Log` row already exists is answered with the duplicate
success response and the state is unchanged — no second row, no enqueue. -/
theorem C2_duplicate_suppression (hmacHex : String → String → String) (conf : SiteConf)
    (w : World) (req : WebhookRequest) (p : RzpPayload)
    (hparse : req.parsed = some p)
    (heid : strTruthy p.event_id = true)
    (hdup : w.logs.any (·.event_id == p.event_id) = true)
    (hsig : verify_razorpay_signature hmacHex req.rawBody req.signature
              (resolve_webhook_secret conf w p) = .ok true) :
    razorpay_webhook hmacHex conf w req
      = (w, ⟨true, some "Duplicate event ignored", none⟩) := by
  unfold razorpay_webhook
  rw [hparse]
  simp only [Option.getD_some]
  rw [hsig]
  simp [heid, hdup]

def c2Payload : RzpPayload :=
  ⟨some "payment.captured", some "evt_1", none, some c1Payment, none, none⟩

def c2Log : WebhookLog :=
  ⟨"RZP-WH-0", some "evt_1", some "payment.captured", some c2Payload, true, none⟩

def c2World : World := ⟨[c2Log], [], [], [], [], [], []⟩

def c2Conf : SiteConf := ⟨some "whsec", some "rzp_key", some "rzp_secret"⟩

/-- A concrete stand-in for the HMAC-SHA256 hex digest. -/
def hmacDemo : String → String → String := fun secret body => secret ++ "#" ++ body

def c2Req : WebhookRequest := ⟨"BODY", "whsec#BODY", some c2Payload⟩

theorem C2_duplicate_suppression_witness :
    c2Req.parsed = some c2Payload ∧
    strTruthy c2Payload.event_id = true ∧
    c2World.logs.any (·.event_id == c2Payload.event_id) = true ∧
    razorpay_webhook hmacDemo c2Conf c2World c2Req
      = (c2World, ⟨true, some "Duplicate event ignored", none⟩) :=
  ⟨by decide, by decide, by decide,
   C2_duplicate_suppression hmacDemo c2Conf c2World c2Req c2Payload
     (by decide) (by decide) (by decide) (by rfl)⟩

/-! ## C3 : signature rejection before persistence -/

/-- C3: a request whose body/signature pair fails HMAC verification against
the resolved secret is rejected with a failure response and no persistence:
the world — logs, queue and everything else — is unchanged. -/
theorem C3_signature_rejection (hmacHex : String → String → String) (conf : SiteConf)
    (w : World) (req : WebhookRequest) (s : String)
    (hsecret : resolve_webhook_secret conf w (req.parsed.getD emptyPayload) = some s)
    (hnonempty : strTruthy (some s) = true)
    (hbad : (hmacHex s req.rawBody == req.signature) = false) :
    razorpay_webhook hmacHex conf w req
      = (w, ⟨false, none, some "Invalid signature"⟩) := by
  unfold razorpay_webhook verify_razorpay_signature
  simp only [hsecret, hnonempty]
  simp [hbad]

def c3Req : WebhookRequest := ⟨"BODY-TAMPERED", "whsec#BODY", some c2Payload⟩

theorem C3_signature_rejection_witness :
    resolve_webhook_secret c2Conf c2World (c3Req.parsed.getD emptyPayload) = some "whsec" ∧
    (hmacDemo "whsec" c3Req.rawBody == c3Req.signature) = false ∧
    razorpay_webhook hmacDemo c2Conf c2World c3Req
      = (c2World, ⟨false, none, some "Invalid signature"⟩) :=
  ⟨by decide, by decide,
   C3_signature_rejection hmacDemo c2Conf c2World c3Req "whsec"
     (by decide) (by decide) (by decide)⟩

/-! ## C9 : payloads without an event id are never deduplicated -/

theorem razorpay_webhook_insert (hmacHex : String → String → String) (conf : SiteConf)
    (w : World) (req : WebhookRequest) (p : RzpPayload)
    (hparse : req.parsed = some p)
    (hsig : verify_razorpay_signature hmacHex req.rawBody req.signature
              (resolve_webhook_secret conf w p) = .ok true)
    (hnodup : (strTruthy p.event_id && w.logs.any (·.event_id == p.event_id)) = false) :
    razorpay_webhook hmacHex conf w req
      = ({ w with
            logs := w.logs ++
              [⟨"RZP-WH-" ++ toString w.logs.length, p.event_id, p.event, some p, false, none⟩],
            queue := w.queue ++ ["RZP-WH-" ++ toString w.logs.length] },
         ⟨true, some "Webhook received", none⟩) := by
  unfold razorpay_webhook
  rw [hparse]
  simp only [Option.getD_some]
  rw [hsig]
  simp [hnodup]

theorem resolve_webhook_secret_restaurants (conf : SiteConf) (w1 w2 : World)
    (p : RzpPayload) (hrw : w1.restaurants = w2.restaurants) :
    resolve_webhook_secret conf w1 p = resolve_webhook_secret conf w2 p := by
  unfold resolve_webhook_secret World.findRestaurant
  rw [hrw]

/-- C9: a verified webhook whose payload has no `event_id` skips the
duplicate check and always inserts a fresh `Razorpay Webhook Log` row (with
a null `event_id`) and enqueues a job; delivering it again on the resulting
state inserts a second row. -/
theorem C9_missing_event_id_never_deduplicated (hmacHex : String → String → String)
    (conf : SiteConf) (w : World) (req : WebhookRequest) (p : RzpPayload)
    (hparse : req.parsed = some p)
    (hnone : p.event_id = none)
    (hsig : verify_razorpay_signature hmacHex req.rawBody req.signature
              (resolve_webhook_secret conf w p) = .ok true) :
    (razorpay_webhook hmacHex conf w req).1.logs = w.logs ++
      [⟨"RZP-WH-" ++ toString w.logs.length, none, p.event, some p, false, none⟩] ∧
    (razorpay_webhook hmacHex conf w req).1.queue
      = w.queue ++ ["RZP-WH-" ++ toString w.logs.length] ∧
    (razorpay_webhook hmacHex conf w req).2 = ⟨true, some "Webhook received", none⟩ ∧
    (razorpay_webhook hmacHex conf
        (razorpay_webhook hmacHex conf w req).1 req).1.logs.length
      = w.logs.length + 2 := by
  have h1 := razorpay_webhook_insert hmacHex conf w req p hparse hsig
    (by rw [hnone]; rfl)
  set w1 := (razorpay_webhook hmacHex conf w req).1 with hw1
  have hw1eq : w1 = { w with
      logs := w.logs ++
        [⟨"RZP-WH-" ++ toString w.logs.length, p.event_id, p.event, some p, false, none⟩],
      queue := w.queue ++ ["RZP-WH-" ++ toString w.logs.length] } := by
    rw [hw1, h1]
  have hrest : w1.restaurants = w.restaurants := by rw [hw1eq]
  have hsig1 : verify_razorpay_signature hmacHex req.rawBody req.signature
      (resolve_webhook_secret conf w1 p) = .ok true := by
    rw [resolve_webhook_secret_restaurants conf w1 w p hrest]
    exact hsig
  have h2 := razorpay_webhook_insert hmacHex conf w1 req p hparse hsig1
    (by rw [hnone]; rfl)
  refine ⟨?_, ?_, ?_, ?_⟩
  · rw [hw1eq, hnone]
  · rw [hw1eq]
  · rw [h1]
  · rw [h2]
    simp [hw1eq]

def c9Payload : RzpPayload :=
  ⟨some "payment.captured", none, none, some c1Payment, none, none⟩

def c9Req : WebhookRequest := ⟨"BODY", "whsec#BODY", some c9Payload⟩

theorem C9_missing_event_id_never_deduplicated_witness :
    c9Req.parsed = some c9Payload ∧ c9Payload.event_id = none ∧
    ((razorpay_webhook hmacDemo c2Conf c2World c9Req).1.logs = c2World.logs ++
        [⟨"RZP-WH-" ++ toString c2World.logs.length, none, c9Payload.event,
          some c9Payload, false, none⟩] ∧
     (razorpay_webhook hmacDemo c2Conf c2World c9Req).1.queue
        = c2World.queue ++ ["RZP-WH-" ++ toString c2World.logs.length] ∧
     (razorpay_webhook hmacDemo c2Conf c2World c9Req).2
        = ⟨true, some "Webhook received", none⟩ ∧
     (razorpay_webhook hmacDemo c2Conf
         (razorpay_webhook hmacDemo c2Conf c2World c9Req).1 c9Req).1.logs.length
        = c2World.logs.length + 2) :=
  ⟨rfl, rfl,
   C9_missing_event_id_never_deduplicated hmacDemo c2Conf c2World c9Req c9Payload
     rfl rfl (by rfl)⟩

/-! ## C7 : refund split and ledger clamp -/

/-- C7: a `refund.processed` event resolving to an Order sets
`paymentStatus="refunded"`, `status="cancelled"` exactly when the refund
amount equals `int(order.total * 100)`, and `paymentStatus="partially_refunded"`
otherwise; the current-month revenue ledger's `total_gmv` and
`total_platform_fee` are reduced by the refund and the truncated proportional
fee, floored at zero — so `total_gmv` never goes negative, even when the
refund exceeds it. -/
theorem C7_refund_split_and_clamp (month : String) (w : World) (p : RzpPayload)
    (rd : RefundEntity) (ra : ℤ) (o : Order) (l : MonthlyRevenueLedger)
    (r : Restaurant) (mm : ℚ)
    (hrd : p.refund = some rd)
    (hra : rd.amount = some ra)
    (ho : w.orders.find? (·.razorpay_payment_id == rd.payment_id) = some o)
    (hfo : w.orders.find? (·.name == o.name) = some o)
    (hT : pyInt (o.total * 100) ≠ 0)
    (hl : w.findRevenueLedger ("MRL-" ++ o.restaurant ++ "-" ++ month) = some l)
    (hrr : w.findRestaurant l.restaurant = some r)
    (hmm : r.monthly_minimum = some mm) :
    (ra = pyInt (o.total * 100) →
      (handle_refund_processed month w p).1.orders.find? (·.name == o.name)
        = some { o with payment_status := "refunded", status := "cancelled" }) ∧
    (ra ≠ pyInt (o.total * 100) →
      (handle_refund_processed month w p).1.orders.find? (·.name == o.name)
        = some { o with payment_status := "partially_refunded" }) ∧
    (∃ l2, (handle_refund_processed month w p).1.findRevenueLedger
        ("MRL-" ++ o.restaurant ++ "-" ++ month) = some l2 ∧
      l2.total_gmv = max 0 (l.total_gmv - ra) ∧
      l2.total_platform_fee = max 0 (l.total_platform_fee -
        ((pyInt (o.platform_fee_amount * ((ra : ℚ) / ((pyInt (o.total * 100) : ℤ) : ℚ)))
          : ℤ) : ℚ)) ∧
      0 ≤ l2.total_gmv) := by
  have hl2 : List.find? (fun x => x.name == ("MRL-" ++ o.restaurant ++ "-" ++ month))
      w.revenueLedgers = some l := hl
  have hnamel : (l.name == ("MRL-" ++ o.restaurant ++ "-" ++ month)) = true := by
    have h := List.find?_some hl2
    simpa using h
  have hstep : handle_refund_processed month w p
      = (reverse_monthly_ledger month
          (w.updateOrder o.name (fun _ =>
            if ra = pyInt (o.total * 100) then
              { o with payment_status := "refunded", status := "cancelled" }
            else { o with payment_status := "partially_refunded" }))
          o.restaurant ra
          (pyInt (o.platform_fee_amount * ((ra : ℚ) / ((pyInt (o.total * 100) : ℤ) : ℚ)))),
         .success ("refund:" ++ rd.payment_id.getD "")) := by
    unfold handle_refund_processed
    rw [hrd]
    simp only [Option.getD_some]
    rw [ho, hra]
    dsimp only
    rw [if_neg hT]
  set o' : Order :=
    (if ra = pyInt (o.total * 100) then
      { o with payment_status := "refunded", status := "cancelled" }
    else { o with payment_status := "partially_refunded" }) with ho'
  set feeRef : ℤ :=
    pyInt (o.platform_fee_amount * ((ra : ℚ) / ((pyInt (o.total * 100) : ℤ) : ℚ))) with hfr
  set w1 := w.updateOrder o.name (fun _ => o') with hw1
  set l1 : MonthlyRevenueLedger :=
    { l with total_gmv := max 0 (l.total_gmv - ra),
             total_platform_fee := max 0 (l.total_platform_fee - (feeRef : ℚ)) } with hl1
  have hhook : ∃ l2, MonthlyRevenueLedger.before_save_hook w1 l1 = some l2 ∧
      l2.name = l1.name ∧ l2.total_gmv = l1.total_gmv ∧
      l2.total_platform_fee = l1.total_platform_fee := by
    unfold MonthlyRevenueLedger.before_save_hook
    have hr1 : w1.findRestaurant l1.restaurant = some r := hrr
    by_cases hc : (decide ¬l1.total_platform_fee = 0 && strTruthy (some l1.restaurant)) = true
    · rw [if_pos hc, hr1]
      dsimp only
      rw [hmm]
      dsimp only
      by_cases h2 : l1.total_platform_fee < ((pyInt (mm * 100) : ℤ) : ℚ)
      · rw [if_pos h2]; exact ⟨_, rfl, rfl, rfl, rfl⟩
      · rw [if_neg h2]; exact ⟨_, rfl, rfl, rfl, rfl⟩
    · rw [if_neg hc]; exact ⟨_, rfl, rfl, rfl, rfl⟩
  obtain ⟨l2, hh, hname2, hg, hf⟩ := hhook
  have hl1' : w1.findRevenueLedger ("MRL-" ++ o.restaurant ++ "-" ++ month) = some l := hl
  have hrev : reverse_monthly_ledger month w1 o.restaurant ra feeRef
      = w1.updateRevenueLedger ("MRL-" ++ o.restaurant ++ "-" ++ month) (fun _ => l2) := by
    unfold reverse_monthly_ledger
    dsimp only
    rw [hl1']
    dsimp only
    rw [hh]
  have horders : (handle_refund_processed month w p).1.orders
      = updateFirst (·.name == o.name) (fun _ => o') w.orders := by
    rw [hstep, hrev]
    rfl
  have hledgers : (handle_refund_processed month w p).1.revenueLedgers
      = updateFirst (·.name == ("MRL-" ++ o.restaurant ++ "-" ++ month)) (fun _ => l2)
          w1.revenueLedgers := by
    rw [hstep, hrev]
    rfl
  refine ⟨?_, ?_, ⟨l2, ?_, ?_, ?_, ?_⟩⟩
  · intro hcase
    rw [horders, find?_updateFirst, hfo]
    · rw [ho', if_pos hcase]
      rfl
    · intro a _
      dsimp only
      rw [ho', if_pos hcase]
      exact beq_self_eq_true _
  · intro hcase
    rw [horders, find?_updateFirst, hfo]
    · rw [ho', if_neg hcase]
      rfl
    · intro a _
      dsimp only
      rw [ho', if_neg hcase]
      exact beq_self_eq_true _
  · show (handle_refund_processed month w p).1.revenueLedgers.find? _ = some l2
    rw [hledgers, find?_updateFirst]
    · rw [show w1.revenueLedgers.find?
          (·.name == ("MRL-" ++ o.restaurant ++ "-" ++ month)) = some l from hl]
      rfl
    · intro a _
      rw [hname2]
      exact hnamel
  · rw [hg]
  · rw [hf]
  · rw [hg]
    exact le_max_left _ _

def c7Order : Order :=
  ⟨"ORD-7", "R1", 500, 10, some "order_7", some "pay_7", some "pay_7", "completed", "confirmed"⟩

def c7Ledger : MonthlyRevenueLedger :=
  ⟨"MRL-R1-2025-09", "R1", "2025-09", 60000, 1200, 0, "pending", none, none, none⟩

def c7Refund : RefundEntity := ⟨some "pay_7", some 50000⟩

def c7Payload : RzpPayload :=
  ⟨some "refund.processed", some "evt_7", none, none, some c7Refund, none⟩

def c7World : World := ⟨[], [c7Order], [], [c7Ledger], [], [c1Restaurant], []⟩

theorem C7_refund_split_and_clamp_witness :
    c7Payload.refund = some c7Refund ∧
    c7Refund.amount = some (50000 : ℤ) ∧
    pyInt (c7Order.total * 100) ≠ 0 ∧
    (((50000 : ℤ) = pyInt (c7Order.total * 100) →
      (handle_refund_processed "2025-09" c7World c7Payload).1.orders.find?
          (·.name == c7Order.name)
        = some { c7Order with payment_status := "refunded", status := "cancelled" }) ∧
    ((50000 : ℤ) ≠ pyInt (c7Order.total * 100) →
      (handle_refund_processed "2025-09" c7World c7Payload).1.orders.find?
          (·.name == c7Order.name)
        = some { c7Order with payment_status := "partially_refunded" }) ∧
    (∃ l2, (handle_refund_processed "2025-09" c7World c7Payload).1.findRevenueLedger
        ("MRL-" ++ c7Order.restaurant ++ "-" ++ "2025-09") = some l2 ∧
      l2.total_gmv = max 0 (c7Ledger.total_gmv - 50000) ∧
      l2.total_platform_fee = max 0 (c7Ledger.total_platform_fee -
        ((pyInt (c7Order.platform_fee_amount *
          ((50000 : ℤ) / ((pyInt (c7Order.total * 100) : ℤ) : ℚ))) : ℤ) : ℚ)) ∧
      0 ≤ l2.total_gmv)) :=
  ⟨by decide, by decide,
   by rw [show (c7Order.total * 100 : ℚ) = 50000 from by norm_num [c7Order]]; decide,
   C7_refund_split_and_clamp "2025-09" c7World c7Payload c7Refund 50000 c7Order
     c7Ledger c1Restaurant 999 (by decide) (by decide) (by decide) (by decide)
     (by rw [show (c7Order.total * 100 : ℚ) = 50000 from by norm_num [c7Order]]; decide)
     (by decide) (by decide) (by decide)⟩

/-! ## C8 : the worker always marks known events processed and never re-runs them -/

theorem logs_handle_payment_captured (now : ℕ) (w : World) (p : RzpPayload) :
    (handle_payment_captured now w p).1.logs = w.logs := by
  unfold handle_payment_captured
  dsimp only
  repeat' split <;> try rfl

theorem logs_handle_refund_processed (month : String) (w : World) (p : RzpPayload) :
    (handle_refund_processed month w p).1.logs = w.logs := by
  unfold handle_refund_processed reverse_monthly_ledger
  dsimp only
  repeat' split <;> try rfl

theorem logs_handle_payment_link_paid (now : ℕ) (w : World) (p : RzpPayload) :
    (handle_payment_link_paid now w p).1.logs = w.logs := by
  unfold handle_payment_link_paid
  dsimp only
  repeat' split <;> try rfl

theorem logs_handle_payment_failed (w : World) (p : RzpPayload) :
    (handle_payment_failed w p).1.logs = w.logs := by
  unfold handle_payment_failed
  dsimp only
  repeat' split <;> try rfl

theorem findLog_updateLog (w' w : World) (logName : String) (log : WebhookLog)
    (f : WebhookLog → WebhookLog)
    (hlogs : w'.logs = w.logs)
    (hfind : w.findLog logName = some log)
    (hname : ∀ a, ((f a).name == logName) = (a.name == logName)) :
    (w'.updateLog logName f).findLog logName = some (f log) := by
  unfold World.updateLog World.findLog
  dsimp only
  rw [hlogs, find?_updateFirst]
  · rw [show List.find? (fun x => x.name == logName) w.logs = some log from hfind]
    rfl
  · intro a ha
    rw [hname a]
    exact ha

theorem process_noop_of_processed (now : ℕ) (month : String) (w : World)
    (logName : String) (log : WebhookLog)
    (hfind : w.findLog logName = some log) (hproc : log.processed = true) :
    process_webhook_log now month w logName = (w, none) := by
  unfold process_webhook_log
  rw [hfind]
  dsimp only
  rw [hproc]
  rfl

/-- C8: every handler is a total function returning a result (all exception
paths of the source return error dicts), so for every existing, unprocessed
log entry the worker ends with `processed = true` — whatever the event type
and whether or not the handler's side effects succeeded — and a second run
on the resulting state is a no-op, so the entry is never re-run. -/
theorem C8_worker_marks_processed (now : ℕ) (month : String) (w : World)
    (logName : String) (log : WebhookLog)
    (hfind : w.findLog logName = some log)
    (hunproc : log.processed = false) :
    (∃ log', (process_webhook_log now month w logName).1.findLog logName = some log'
        ∧ log'.processed = true) ∧
    process_webhook_log now month (process_webhook_log now month w logName).1 logName
      = ((process_webhook_log now month w logName).1, none) := by
  have hmain : ∃ log', (process_webhook_log now month w logName).1.findLog logName
      = some log' ∧ log'.processed = true := by
    unfold process_webhook_log
    rw [hfind]
    dsimp only
    rw [hunproc]
    simp only [Bool.false_eq_true, if_false]
    cases hpay : log.payload with
    | none =>
      exact ⟨_, findLog_updateLog w w logName log _ rfl hfind (fun a => rfl), rfl⟩
    | some pl =>
      dsimp only
      split
      · exact ⟨_, findLog_updateLog _ w logName log _
          (logs_handle_payment_captured now w pl) hfind (fun a => rfl), rfl⟩
      · split
        · exact ⟨_, findLog_updateLog _ w logName log _
            (logs_handle_refund_processed month w pl) hfind (fun a => rfl), rfl⟩
        · split
          · exact ⟨_, findLog_updateLog _ w logName log _
              (logs_handle_payment_link_paid now w pl) hfind (fun a => rfl), rfl⟩
          · split
            · exact ⟨_, findLog_updateLog _ w logName log _
                (logs_handle_payment_failed w pl) hfind (fun a => rfl), rfl⟩
            · exact ⟨_, findLog_updateLog w w logName log _ rfl hfind (fun a => rfl), rfl⟩
  refine ⟨hmain, ?_⟩
  obtain ⟨log', hfl, hp⟩ := hmain
  exact process_noop_of_processed now month _ logName log' hfl hp

def c8Log : WebhookLog :=
  ⟨"RZP-WH-0", some "evt_8", some "payment.captured", some c1Payload, false, none⟩

def c8World : World := ⟨[c8Log], [c1Order], [], [], [], [c1Restaurant], []⟩

theorem C8_worker_marks_processed_witness :
    c8World.findLog "RZP-WH-0" = some c8Log ∧
    c8Log.processed = false ∧
    ((∃ log', (process_webhook_log 0 "2025-09" c8World "RZP-WH-0").1.findLog "RZP-WH-0"
        = some log' ∧ log'.processed = true) ∧
     process_webhook_log 0 "2025-09"
         (process_webhook_log 0 "2025-09" c8World "RZP-WH-0").1 "RZP-WH-0"
       = ((process_webhook_log 0 "2025-09" c8World "RZP-WH-0").1, none)) ∧
    ((process_webhook_log 0 "2025-09" c8World "RZP-WH-0").1.findLog "RZP-WH-0").map
        (·.processing_result)
      = some (some "error:No order_id in payment data") :=
  ⟨by decide, by decide,
   C8_worker_marks_processed 0 "2025-09" c8World "RZP-WH-0" c8Log (by decide) (by decide),
   by decide⟩

/-! ## C6 : which statuses the retry scheduler can set -/

def c6Conf : SiteConf := ⟨some "whsec", none, none⟩

def c6Restaurant : Restaurant :=
  ⟨"R1", none, none, some "cust_1", some "tok_1", some "active", none, none, none, some 999⟩

def c6Ledger : MonthlyBillingLedger :=
  ⟨"MBL-R1-2025-08", "R1", "2025-08", 500000, 5000, 99900, "pending", none, 0, none, none⟩

def c6World : World := ⟨[], [], [c6Ledger], [], [], [c6Restaurant], []⟩

/-- C6 counterexample: with no site API keys configured (and no merchant
keys), `charge_monthly_bill`'s outer `except` marks the ledger
`payment_status = "failed"` directly — so the charge routine does reach
`"failed"`, which the claim reserves to the webhook handlers. -/
theorem C6_counterexample :
    c6World.billingLedgers.map (·.payment_status) = ["pending"] ∧
    ((charge_monthly_bill (.ok (some "pay_X")) 0 c6Conf c6World
        "MBL-R1-2025-08").1.billingLedgers.map (·.payment_status)) = ["failed"] := by
  constructor <;> rfl

theorem charge_preserves_unpaid (gw : Except String (Option String)) (now : ℕ)
    (conf : SiteConf) (w : World) (nm : String) :
    ∀ l' ∈ (charge_monthly_bill gw now conf w nm).1.billingLedgers,
      l'.payment_status = "paid" →
      ∃ l, l ∈ w.billingLedgers ∧ l.name = l'.name ∧ l.payment_status = "paid" := by
  intro l' hmem hpaid
  unfold charge_monthly_bill at hmem
  repeat' split at hmem
  all_goals try exact ⟨l', hmem, rfl, hpaid⟩
  all_goals
    dsimp only [World.updateBillingLedger] at hmem
    rcases mem_updateFirst hmem with h | ⟨x, hx, hpx, hx'⟩
    · exact ⟨l', h, rfl, hpaid⟩
    · rw [hx'] at hpaid
      simp at hpaid

theorem process_retry_preserves_unpaid (gw : Except String (Option String)) (now : ℕ)
    (conf : SiteConf) (w : World) :
    ∀ l' ∈ (process_retry_charges gw now conf w).1.billingLedgers,
      l'.payment_status = "paid" →
      ∃ l, l ∈ w.billingLedgers ∧ l.name = l'.name ∧ l.payment_status = "paid" := by
  have hfold : ∀ (ds : List MonthlyBillingLedger) (acc : World),
      (∀ m ∈ acc.billingLedgers, m.payment_status = "paid" →
        ∃ l, l ∈ w.billingLedgers ∧ l.name = m.name ∧ l.payment_status = "paid") →
      ∀ l' ∈ (ds.foldl (fun a d => (charge_monthly_bill gw now conf a d.name).1)
          acc).billingLedgers,
        l'.payment_status = "paid" →
        ∃ l, l ∈ w.billingLedgers ∧ l.name = l'.name ∧ l.payment_status = "paid" := by
    intro ds
    induction ds with
    | nil => intro acc hacc l' hmem hp; exact hacc l' hmem hp
    | cons d ds ih =>
      intro acc hacc l' hmem hp
      refine ih _ ?_ l' hmem hp
      intro m hm hmp
      obtain ⟨x, hx, hxn, hxp⟩ := charge_preserves_unpaid gw now conf acc d.name m hm hmp
      obtain ⟨l, hl, hln, hlp⟩ := hacc x hx hxp
      exact ⟨l, hl, by rw [hln, hxn], hlp⟩
  intro l' hmem hp
  unfold process_retry_charges at hmem
  dsimp only at hmem
  exact hfold _ w (fun m hm hmp => ⟨m, hm, rfl, hmp⟩) l' hmem hp

/-- C6 (amended): `charge_monthly_bill` is a no-op on an already-paid ledger;
neither it nor `process_retry_charges` ever sets a ledger to `"paid"`; a
failed gateway attempt sets exactly `"retry"` (with the backoff fields) and a
successful one exactly `"pending"` — but on the exception path (client
construction fails because no API keys resolve) the routine sets
`payment_status = "failed"` directly, contrary to the original claim. -/
theorem C6_charge_status_discipline_amended :
    (∀ (gw : Except String (Option String)) (now : ℕ) (conf : SiteConf) (w : World)
        (nm : String) (l : MonthlyBillingLedger),
       w.billingLedgers.find? (·.name == nm) = some l →
       (l.payment_status == "paid") = true →
       charge_monthly_bill gw now conf w nm = (w, .error "Already paid")) ∧
    (∀ (gw : Except String (Option String)) (now : ℕ) (conf : SiteConf) (w : World)
        (nm : String) (l' : MonthlyBillingLedger),
       l' ∈ (charge_monthly_bill gw now conf w nm).1.billingLedgers →
       l'.payment_status = "paid" →
       ∃ l, l ∈ w.billingLedgers ∧ l.name = l'.name ∧ l.payment_status = "paid") ∧
    (∀ (gw : Except String (Option String)) (now : ℕ) (conf : SiteConf) (w : World)
        (l' : MonthlyBillingLedger),
       l' ∈ (process_retry_charges gw now conf w).1.billingLedgers →
       l'.payment_status = "paid" →
       ∃ l, l ∈ w.billingLedgers ∧ l.name = l'.name ∧ l.payment_status = "paid") ∧
    (∀ (gwErr : String) (now : ℕ) (conf : SiteConf) (w : World) (nm : String)
        (l : MonthlyBillingLedger) (r : Restaurant),
       w.billingLedgers.find? (·.name == nm) = some l →
       (l.payment_status == "paid") = false →
       w.findRestaurant l.restaurant = some r →
       (strTruthy r.razorpay_customer_id && strTruthy r.razorpay_token_id) = true →
       (∃ ks, payments_get_razorpay_client conf w (some r.name) = .ok ks) →
       (charge_monthly_bill (.error gwErr) now conf w nm).1.billingLedgers.find?
           (·.name == nm)
         = some { l with retry_count := l.retry_count + 1,
                         next_retry_at := some (now + backoffDelay (l.retry_count + 1)),
                         payment_status := "retry" }) ∧
    (∀ (pid : Option String) (now : ℕ) (conf : SiteConf) (w : World) (nm : String)
        (l : MonthlyBillingLedger) (r : Restaurant),
       w.billingLedgers.find? (·.name == nm) = some l →
       (l.payment_status == "paid") = false →
       w.findRestaurant l.restaurant = some r →
       (strTruthy r.razorpay_customer_id && strTruthy r.razorpay_token_id) = true →
       (∃ ks, payments_get_razorpay_client conf w (some r.name) = .ok ks) →
       (charge_monthly_bill (.ok pid) now conf w nm).1.billingLedgers.find?
           (·.name == nm)
         = some { l with razorpay_payment_id := pid, payment_status := "pending" }) ∧
    (∀ (gw : Except String (Option String)) (e : String) (now : ℕ) (conf : SiteConf)
        (w : World) (nm : String) (l : MonthlyBillingLedger) (r : Restaurant),
       w.billingLedgers.find? (·.name == nm) = some l →
       (l.payment_status == "paid") = false →
       w.findRestaurant l.restaurant = some r →
       (strTruthy r.razorpay_customer_id && strTruthy r.razorpay_token_id) = true →
       payments_get_razorpay_client conf w (some r.name) = .error e →
       (charge_monthly_bill gw now conf w nm).1.billingLedgers.find? (·.name == nm)
         = some { l with payment_status := "failed" }) := by
  refine ⟨?_, ?_, ?_, ?_, ?_, ?_⟩
  · intro gw now conf w nm l hfound hpaid
    unfold charge_monthly_bill
    rw [hfound]
    dsimp only
    rw [hpaid]
    rfl
  · intro gw now conf w nm l' hmem hp
    exact charge_preserves_unpaid gw now conf w nm l' hmem hp
  · intro gw now conf w l' hmem hp
    exact process_retry_preserves_unpaid gw now conf w l' hmem hp
  · intro gwErr now conf w nm l r hfound hnp hrr hcred hclient
    obtain ⟨ks, hks⟩ := hclient
    obtain ⟨h1, h2⟩ := Bool.and_eq_true_iff.mp hcred
    simp only [charge_monthly_bill, hfound, hnp, hrr, hks, h1, h2,
      World.updateBillingLedger, Bool.not_true, Bool.or_self, Bool.false_eq_true, if_false]
    rw [find?_updateFirst]
    · rw [hfound]; rfl
    · intro a ha; exact ha
  · intro pid now conf w nm l r hfound hnp hrr hcred hclient
    obtain ⟨ks, hks⟩ := hclient
    obtain ⟨h1, h2⟩ := Bool.and_eq_true_iff.mp hcred
    simp only [charge_monthly_bill, hfound, hnp, hrr, hks, h1, h2,
      World.updateBillingLedger, Bool.not_true, Bool.or_self, Bool.false_eq_true, if_false]
    rw [find?_updateFirst]
    · rw [hfound]; rfl
    · intro a ha; exact ha
  · intro gw e now conf w nm l r hfound hnp hrr hcred herr
    obtain ⟨h1, h2⟩ := Bool.and_eq_true_iff.mp hcred
    simp only [charge_monthly_bill, hfound, hnp, hrr, herr, h1, h2,
      World.updateBillingLedger, Bool.not_true, Bool.or_self, Bool.false_eq_true, if_false]
    rw [find?_updateFirst]
    · rw [hfound]; rfl
    · intro a ha; exact ha

def c6PaidLedger : MonthlyBillingLedger :=
  ⟨"MBL-P", "R1", "2025-08", 0, 0, 99900, "paid", none, 0, none, none⟩

def c6PaidWorld : World := ⟨[], [], [c6PaidLedger], [], [], [c6Restaurant], []⟩

theorem C6_charge_status_discipline_amended_witness :
    c6PaidWorld.billingLedgers.find? (·.name == "MBL-P") = some c6PaidLedger ∧
    (c6PaidLedger.payment_status == "paid") = true ∧
    charge_monthly_bill (.ok (some "pay_Z")) 0 c6Conf c6PaidWorld "MBL-P"
      = (c6PaidWorld, .error "Already paid") :=
  ⟨by decide, by decide,
   C6_charge_status_discipline_amended.1 (.ok (some "pay_Z")) 0 c6Conf c6PaidWorld
     "MBL-P" c6PaidLedger (by decide) (by decide)⟩
